import Mathlib

/-!
# Verification of the vm-wallet unlock orchestrator

Shallow embedding of `src/main.rs` of the `tsleesg/vm-wallet` repository: a
client-side orchestrator that drives a time-locked custodial account on a
remote ledger VM through its unlock states.

Modelling conventions:
* Byte sequences are `List Nat`; public keys (`Pubkey`) are `Nat` — only
  equality of derived addresses matters to the client logic.
* The ed25519 public-key derivation, the base58 rendering of a public key, and
  the BIP39 `parse_normalized`/`to_seed` chain live in external crates
  (`solana_sdk`, `bip39`); they enter the model as explicit function
  parameters (`derivePub`, `pubkeyString`, `toSeed`), so every theorem holds
  for an arbitrary choice of these collaborators.
* Network I/O is modelled by passing in the observations the program would
  make: the result of each `get_account` call and the remote clock value read
  on each poll iteration. Transaction submission is modelled as succeeding;
  no claim below depends on a submission failure.
* Strings printed with `println!` that claims refer to are tracked in a
  `messages` list; process exit via `return Ok(())` versus `return Err(..)`
  is distinguished in the outcome types.
-/

namespace VmWallet

/-- Raw byte sequences (Rust `Vec<u8>` / `&[u8]`). -/
abbrev Bytes := List Nat

/-- Model of `solana_sdk::pubkey::Pubkey`; only equality of addresses is used
by the client, so an opaque numeric identifier suffices. -/
abbrev Pubkey := Nat

/-- Model of `solana_sdk::signature::Keypair`: the 32 secret bytes together
with the public key derived from them. -/
structure Keypair where
  secret : Bytes
  public : Pubkey
deriving DecidableEq

/-- Model of `Keypair::from_seed` (`SeedDerivable`): succeeds exactly on a
32-byte seed; the secret bytes of the resulting keypair are the seed itself
and the public key is derived from them by the (abstract) ed25519 derivation
`derivePub`. -/
def keypairFromSeed (derivePub : Bytes → Pubkey) (seed : Bytes) :
    Except String Keypair :=
  if seed.length = 32 then .ok ⟨seed, derivePub seed⟩
  else .error "invalid seed length"

/-- Model of the `KeyFileFormat` struct of `main.rs` (the JSON schema of
`owner_key.json` / `payer_key.json`): a private-key byte sequence and a
public-key string. The JSON (de)serialization by `format!`/`serde_json` is
transparent at this level: the model works on the decoded record, with
`Except.error` covering file-system and JSON-decoding failures. -/
structure KeyFileFormat where
  private_key : Bytes
  pubkey : String
deriving DecidableEq

/-- Outcome of `load_keypair_from_file`, distinguishing a returned `Ok`, a
returned `Err`, and a Rust panic (the `.expect(..)` call in the source). -/
inductive LoadOutcome
  | ok (kp : Keypair)
  | err (msg : String)
  | panicked (msg : String)
deriving DecidableEq

/-- True exactly when the outcome is a returned value (`Ok` or `Err`) rather
than a panic. -/
def isReturned : LoadOutcome → Bool
  | .ok _ => true
  | .err _ => true
  | .panicked _ => false

/-- Model of `load_keypair_from_file` over the already-read-and-parsed file
content: `parsed` is the combined result of `fs::read_to_string` and
`serde_json::from_str` (an `Except.error` models either failing, propagated
by `?`). The `stored.private_key.try_into()` conversion to `[u8; 32]` is
followed by `.expect("Invalid private key length")` in the source, which
panics when the length is not 32; `Keypair::from_seed` errors are propagated
by `?`. Only the `private_key` field of the record is consulted. -/
def load_keypair_from_file (derivePub : Bytes → Pubkey)
    (parsed : Except String KeyFileFormat) : LoadOutcome :=
  match parsed with
  | .error e => .err e
  | .ok stored =>
    if stored.private_key.length = 32 then
      match keypairFromSeed derivePub stored.private_key with
      | .ok kp => .ok kp
      | .error e => .err e
    else
      .panicked "Invalid private key length"

/-- Rust `char::is_ascii_lowercase`: true exactly on `'a'..='z'`. -/
def isAsciiLowercase (c : Char) : Bool :=
  97 ≤ c.toNat && c.toNat ≤ 122

/-- Accumulator-style worker for `splitWhitespace`. -/
def splitWhitespaceAux : List Char → List Char → List (List Char)
  | [], acc => if acc.isEmpty then [] else [acc.reverse]
  | c :: cs, acc =>
    if c.isWhitespace then
      if acc.isEmpty then splitWhitespaceAux cs []
      else acc.reverse :: splitWhitespaceAux cs []
    else splitWhitespaceAux cs (c :: acc)

/-- Rust `str::split_whitespace` over a character list: maximal runs of
non-whitespace characters, empty runs discarded. -/
def splitWhitespace (s : List Char) : List (List Char) :=
  splitWhitespaceAux s []

/-- Rust `str::trim` over a character list: strip leading and trailing
whitespace. -/
def trimChars (s : List Char) : List Char :=
  ((s.dropWhile Char.isWhitespace).reverse.dropWhile Char.isWhitespace).reverse

/-- The key-generation-and-persistence tail of `setup_owner_keypair` (lines
after the two validation checks): parse the mnemonic and stretch it to a
seed (`toSeed` models `Mnemonic::parse_normalized` followed by
`to_seed("")`, whose failure is propagated by `?`), build the keypair from
the first 32 seed bytes, and write the key file whose `private_key` field is
the keypair's secret bytes and whose `pubkey` field is the rendered public
key. -/
def generateAndPersist (toSeed : List Char → Except String Bytes)
    (derivePub : Bytes → Pubkey) (pubkeyString : Pubkey → String)
    (phrase : List Char) : Except String KeyFileFormat :=
  match toSeed phrase with
  | .error e => .error e
  | .ok seed =>
    match keypairFromSeed derivePub (seed.take 32) with
    | .error e => .error e
    | .ok kp => .ok ⟨kp.secret, pubkeyString kp.public⟩

/-- Model of `setup_owner_keypair` over the line read from stdin: trim the
input, reject unless it splits into exactly 12 whitespace-separated words,
reject if any character is neither ASCII lowercase nor whitespace, and
otherwise generate the keypair and persist the key file. The returned
`KeyFileFormat` is the record written to `owner_key.json`. -/
def setup_owner_keypair (toSeed : List Char → Except String Bytes)
    (derivePub : Bytes → Pubkey) (pubkeyString : Pubkey → String)
    (input : List Char) : Except String KeyFileFormat :=
  let phrase := trimChars input
  if (splitWhitespace phrase).length ≠ 12 then
    .error "Mnemonic must be exactly 12 words"
  else if phrase.any (fun c => !(isAsciiLowercase c) && !(c.isWhitespace)) then
    .error "Mnemonic can only contain lowercase letters and spaces"
  else
    generateAndPersist toSeed derivePub pubkeyString phrase

/-- Error type of the RPC client's `get_account`: in `solana_client`, a
missing account and a transport failure both surface as values of the one
`ClientError` type; the model keeps them as distinguishable constructors so
that conflating them is an observable fact about the wallet code. -/
inductive RpcError
  | accountNotFound
  | transport (msg : String)
deriving DecidableEq

/-- Model of `UnlockContext::check_unlock_account`: match on the result of
`get_account(unlock_pda)`; `Ok(_)` becomes `Ok(true)` ("account exists") and
any `Err(_)` — whichever `RpcError` it carries — becomes `Ok(false)`
("account doesn't exist"). -/
def check_unlock_account (fetched : Except RpcError Bytes) :
    Except String Bool :=
  match fetched with
  | .ok _ => .ok true
  | .error _ => .ok false

/-- Discriminant value for the Unlocked variant of the unlock account state
(defined by the external `code_vm_api` crate; only its distinctness from
`WAITING_STATE` matters to the client logic). -/
def UNLOCKED_STATE : Nat := 1

/-- Discriminant value for the WaitingForTimeout variant of the unlock
account state (defined by the external `code_vm_api` crate; only its
distinctness from `UNLOCKED_STATE` matters to the client logic). -/
def WAITING_STATE : Nat := 2

/-- The fields of `code_vm_api`'s `UnlockStateAccount` that the wallet
reads: the state discriminant and the `unlock_at` timestamp (seconds since
epoch, an `i64`). -/
structure UnlockStateAccount where
  state : Nat
  unlock_at : Int
deriving DecidableEq

/-- Model of `UnlockStateAccount::is_unlocked` from `code_vm_api`. -/
def UnlockStateAccount.is_unlocked (s : UnlockStateAccount) : Bool :=
  s.state == UNLOCKED_STATE

/-- Model of `UnlockStateAccount::is_waiting` from `code_vm_api`. -/
def UnlockStateAccount.is_waiting (s : UnlockStateAccount) : Bool :=
  s.state == WAITING_STATE

/-- The externally observable protocol actions the wallet can take on the
ledger, plus the client-side sleep. The `withdraw` and
`createAssociatedAccount` constructors give the vocabulary of spec §4.5 step
5 (`AccountUnlocked → Completed`) so that claims about a withdrawal step can
be stated; whether the code ever emits them is settled by the theorems. -/
inductive TxAction
  | initUnlock
  | finalizeUnlock
  | withdraw
  | createAssociatedAccount
  | sleepSecs (n : Nat)
deriving DecidableEq

/-- One iteration's worth of remote observations inside `wait_for_unlock`:
the decoded `UnlockStateAccount` read at the top of the loop body and the
`unix_timestamp` read from the clock sysvar account afterwards. -/
structure PollObservation where
  stateAcc : UnlockStateAccount
  clockNow : Int
deriving DecidableEq

/-- How an invocation of `wait_for_unlock` ends. `alreadyUnlocked` is the
early `return Ok(())` ("Account is already unlocked!"); `finalized` is the
`return self.send_finalize_unlock_tx(..)` after the deadline check;
`failed` is a returned `Err`; `fuelExhausted` means the supplied observation
stream ran out while the loop would still be running. -/
inductive PollOutcome
  | alreadyUnlocked
  | finalized
  | failed (msg : String)
  | fuelExhausted
deriving DecidableEq

/-- Model of `UnlockContext::wait_for_unlock`, driven by the stream of
per-iteration remote observations. Each loop iteration: read the unlock
state; if `is_unlocked` return `Ok`; if not `is_waiting` return
`Err("Invalid unlock state")`; read the clock; if `current_time >=
unlock_at` submit `finalize_unlock` and return; otherwise sleep 60 seconds
and run the next iteration (which re-reads the remote state, i.e. consumes
the next observation). The first component collects the actions taken. -/
def wait_for_unlock : List PollObservation → List TxAction × PollOutcome
  | [] => ([], .fuelExhausted)
  | obs :: rest =>
    if obs.stateAcc.is_unlocked then ([], .alreadyUnlocked)
    else if !obs.stateAcc.is_waiting then ([], .failed "Invalid unlock state")
    else if obs.stateAcc.unlock_at ≤ obs.clockNow then
      ([.finalizeUnlock], .finalized)
    else
      (.sleepSecs 60 :: (wait_for_unlock rest).1, (wait_for_unlock rest).2)

/-- Model of `UnlockContext::verify_unlock_pda`: the function body recomputes
the expected PDA from the raw seeds (`CODE_VM`, `VM_UNLOCK_ACCOUNT`, owner,
timelock address, vm_state) via `Pubkey::find_program_address` and returns
whether the PDA passed in equals it. The two SHA-256-based derivations are
abstracted into their resulting addresses `derivedPda` (from
`get_unlock_pda`, the two-step derivation) and `expectedPda` (the
independent recomputation); the function is the comparison the source
performs on them. -/
def verify_unlock_pda (derivedPda expectedPda : Pubkey) : Bool :=
  derivedPda == expectedPda

/-- The remote observations a whole run of `main` makes: the two derived
addresses, whether `get_account(unlock_pda)` succeeded inside
`check_unlock_account`, and the per-iteration observations consumed by
`wait_for_unlock`. -/
structure RunEnv where
  derivedPda : Pubkey
  expectedPda : Pubkey
  accountExists : Bool
  poll : List PollObservation
deriving DecidableEq

/-- How a run of `main` ends. `completedOk` is `Ok(())` after printing
"Unlock process completed successfully!"; `pdaFailedOk` is the early
`return Ok(())` after printing "PDA verification failed!"; `failed` is a
returned `Err`; `fuelExhausted` is the modelling artifact of running out of
supplied observations. -/
inductive RunOutcome
  | completedOk
  | pdaFailedOk
  | failed (msg : String)
  | fuelExhausted
deriving DecidableEq

/-- True exactly on the outcome in which `main` returns an `Err`. -/
def isRunError : RunOutcome → Bool
  | .failed _ => true
  | _ => false

/-- Lift the result of `wait_for_unlock` to the end of `main`: both `Ok`
returns of the loop let `main` run to its final success message, an `Err`
propagates through `?`. -/
def liftPoll : PollOutcome → RunOutcome
  | .alreadyUnlocked => .completedOk
  | .finalized => .completedOk
  | .failed m => .failed m
  | .fuelExhausted => .fuelExhausted

/-- A run's observable behaviour: the ledger actions submitted, the progress
messages printed by `main`, and how the process ended. -/
structure RunResult where
  actions : List TxAction
  messages : List String
  outcome : RunOutcome
deriving DecidableEq

/-- Model of `main` (after context construction): verify the PDA — on
mismatch print "PDA verification failed!" and `return Ok(())`; otherwise
branch on `check_unlock_account`: if the unlock account exists go straight
to `wait_for_unlock`, else submit `init_unlock` (`send_unlock_tx`) first and
then `wait_for_unlock`; on an `Ok` return of the loop print the final
success message. Transaction submission is modelled as succeeding. -/
def mainFlow (env : RunEnv) : RunResult :=
  if verify_unlock_pda env.derivedPda env.expectedPda = false then
    ⟨[], ["PDA verification failed!"], .pdaFailedOk⟩
  else
    ⟨(if env.accountExists then [] else [TxAction.initUnlock])
        ++ (wait_for_unlock env.poll).1,
      "PDA verification passed, checking unlock status..." ::
        (if liftPoll (wait_for_unlock env.poll).2 = RunOutcome.completedOk then
          ["Unlock process completed successfully!"] else []),
      liftPoll (wait_for_unlock env.poll).2⟩

/-!
## Claim theorems
-/

/-- Helper: the Waiting and Unlocked discriminants are distinct, so a state
observed as Waiting is not Unlocked. -/
theorem is_waiting_not_unlocked (s : UnlockStateAccount)
    (h : s.is_waiting = true) : s.is_unlocked = false := by
  simp only [UnlockStateAccount.is_waiting, WAITING_STATE, beq_iff_eq] at h
  simp [UnlockStateAccount.is_unlocked, UNLOCKED_STATE, h]

/-- Helper: the only actions the poll loop ever takes are submitting
`finalize_unlock` and sleeping 60 seconds. -/
theorem wait_for_unlock_action_mem (l : List PollObservation) (a : TxAction)
    (ha : a ∈ (wait_for_unlock l).1) :
    a = TxAction.finalizeUnlock ∨ a = TxAction.sleepSecs 60 := by
  induction l with
  | nil => simp [wait_for_unlock] at ha
  | cons obs rest ih =>
    simp only [wait_for_unlock] at ha
    split at ha
    · simp at ha
    · split at ha
      · simp at ha
      · split at ha
        · simp at ha
          exact Or.inl ha
        · simp only [List.mem_cons] at ha
          rcases ha with h | h
          · exact Or.inr h
          · exact ih h

/-- C2, counterexample. The claim says a missing account fails with
`NotFound` while a transport failure fails with a distinct `TransportError`,
never conflated into the same result. In the code, `check_unlock_account`
maps a concrete not-found error and a concrete transport error to the very
same result `Ok(false)`. -/
theorem C2_conflation_counterexample :
    check_unlock_account (.error .accountNotFound)
      = check_unlock_account (.error (.transport "connection reset"))
    ∧ check_unlock_account (.error .accountNotFound) = .ok false := by
  constructor <;> rfl

/-- C2, amended. `check_unlock_account` maps a successful `get_account` to
`Ok(true)` and every error — account absence and transport failure alike —
to the same `Ok(false)`: the two failure causes are conflated rather than
distinguished. -/
theorem C2_check_unlock_account_conflates (e : RpcError) (payload : Bytes) :
    check_unlock_account (.error e) = .ok false
    ∧ check_unlock_account (.ok payload) = .ok true := by
  constructor <;> rfl

/-- C6. Whenever the unlock state read at the top of a poll iteration is
neither Waiting nor Unlocked, `wait_for_unlock` returns
`Err("Invalid unlock state")` at once: no `finalize_unlock` is submitted and
no sleep happens (the action list of the run is empty). -/
theorem C6_invalid_state_fatal (obs : PollObservation)
    (rest : List PollObservation)
    (hw : obs.stateAcc.is_waiting = false)
    (hu : obs.stateAcc.is_unlocked = false) :
    wait_for_unlock (obs :: rest) = ([], .failed "Invalid unlock state") := by
  simp [wait_for_unlock, hw, hu]

/-- C6, witness: a concrete state discriminant (0) that is neither Waiting
nor Unlocked makes the loop fail immediately with no actions. -/
theorem C6_invalid_state_fatal_witness :
    wait_for_unlock [⟨⟨0, 5⟩, 0⟩] = ([], .failed "Invalid unlock state") :=
  C6_invalid_state_fatal ⟨⟨0, 5⟩, 0⟩ [] (by decide) (by decide)

/-- C9, counterexample. The claim says any private-key byte sequence of
unexpected length produces a returned fatal error, never a panic — and that
the schema admits 32/64-byte keys. A parsed key file with a 64-byte
`private_key` makes `load_keypair_from_file` panic (the `.expect` on the
`[u8; 32]` conversion), not return. -/
theorem C9_panic_counterexample :
    load_keypair_from_file (fun _ => 0)
        (.ok ⟨List.replicate 64 0, "pk"⟩)
      = .panicked "Invalid private key length"
    ∧ isReturned (load_keypair_from_file (fun _ => 0)
        (.ok ⟨List.replicate 64 0, "pk"⟩)) = false := by
  constructor <;> rfl

/-- C9, amended. Loading a key file returns `Ok` or a returned `Err` for
every input except one family: a successfully parsed record whose
`private_key` length differs from exactly 32 bytes (including the schema's
64-byte variant), which panics with "Invalid private key length" instead of
returning. -/
theorem C9_load_total_except_length (derivePub : Bytes → Pubkey)
    (parsed : Except String KeyFileFormat) :
    isReturned (load_keypair_from_file derivePub parsed) = false
    ↔ ∃ stored, parsed = .ok stored ∧ stored.private_key.length ≠ 32 := by
  cases parsed with
  | error e => simp [load_keypair_from_file, isReturned]
  | ok stored =>
    by_cases h : stored.private_key.length = 32
    · simp [load_keypair_from_file, h, keypairFromSeed, isReturned]
    · simp [load_keypair_from_file, h, isReturned]

/-- C9, witness for the amended claim: a parsed record with a 64-byte key
panics (is not a returned outcome), and one with a 32-byte key is a returned
outcome. -/
theorem C9_load_total_except_length_witness :
    isReturned (load_keypair_from_file (fun _ => 0)
        (.ok ⟨List.replicate 64 0, "pk"⟩)) = false
    ∧ isReturned (load_keypair_from_file (fun _ => 0)
        (.ok ⟨List.replicate 32 0, "pk"⟩)) ≠ false :=
  ⟨(C9_load_total_except_length (fun _ => 0)
      (.ok ⟨List.replicate 64 0, "pk"⟩)).mpr
      ⟨⟨List.replicate 64 0, "pk"⟩, rfl, by decide⟩,
    fun hc => by
      have h := (C9_load_total_except_length (fun _ => 0)
        (.ok ⟨List.replicate 32 0, "pk"⟩)).mp hc
      obtain ⟨stored, hs, hlen⟩ := h
      cases hs
      exact hlen (by decide)⟩

/-- C10. The keypair loaded from a key file depends only on the
`private_key` field: two parsed records that agree on `private_key` load to
the identical outcome, whatever their `pubkey` strings say — the stored
public-key string is never consulted, let alone validated. -/
theorem C10_load_ignores_pubkey_field (derivePub : Bytes → Pubkey)
    (f1 f2 : KeyFileFormat) (h : f1.private_key = f2.private_key) :
    load_keypair_from_file derivePub (.ok f1)
      = load_keypair_from_file derivePub (.ok f2) := by
  simp only [load_keypair_from_file, h]

/-- C10, witness: two concrete key files sharing the private key but with
contradictory pubkey strings load identically. -/
theorem C10_load_ignores_pubkey_field_witness :
    load_keypair_from_file (fun _ => 0)
        (.ok ⟨List.replicate 32 7, "recorded-pubkey-string"⟩)
      = load_keypair_from_file (fun _ => 0)
        (.ok ⟨List.replicate 32 7, "a totally different string"⟩) :=
  C10_load_ignores_pubkey_field (fun _ => 0)
    ⟨List.replicate 32 7, "recorded-pubkey-string"⟩
    ⟨List.replicate 32 7, "a totally different string"⟩ rfl

/-- C3. On any poll iteration whose decoded state is Waiting: the loop
submits `finalize_unlock` and terminates on that very iteration exactly when
the remote clock has reached `unlock_at`; and when the clock is still before
`unlock_at`, the iteration contributes only a 60-second sleep and the loop
goes on to re-read the remote state (the recursion on the remaining
observation stream). -/
theorem C3_poll_waiting_finalize_iff (obs : PollObservation)
    (rest : List PollObservation) (hw : obs.stateAcc.is_waiting = true) :
    (wait_for_unlock (obs :: rest)
        = ([TxAction.finalizeUnlock], .finalized)
      ↔ obs.stateAcc.unlock_at ≤ obs.clockNow)
    ∧ (obs.clockNow < obs.stateAcc.unlock_at →
        wait_for_unlock (obs :: rest)
          = (TxAction.sleepSecs 60 :: (wait_for_unlock rest).1,
              (wait_for_unlock rest).2)) := by
  have hu : obs.stateAcc.is_unlocked = false := is_waiting_not_unlocked _ hw
  constructor
  · constructor
    · intro h
      by_contra hgt
      rw [not_le] at hgt
      simp [wait_for_unlock, hu, hw, not_le.mpr hgt] at h
    · intro h
      simp [wait_for_unlock, hu, hw, h]
  · intro h
    simp [wait_for_unlock, hu, hw, not_le.mpr h]

/-- C3, witness: with a Waiting state whose deadline (100) equals the remote
clock reading (100), the loop finalizes and terminates on that iteration. -/
theorem C3_poll_waiting_finalize_iff_witness :
    wait_for_unlock [⟨⟨WAITING_STATE, 100⟩, 100⟩]
      = ([TxAction.finalizeUnlock], .finalized) :=
  ((C3_poll_waiting_finalize_iff ⟨⟨WAITING_STATE, 100⟩, 100⟩ []
    (by decide)).1).mpr (by decide)

/-- C1, counterexample. The claim says that once the unlock account is
Unlocked the orchestrator creates the destination associated token account
if absent and submits a `withdraw` before reporting success. On a concrete
run observing an Unlocked account, `main` reports success with an empty
action list: no associated-account creation and no withdraw ever happen. -/
theorem C1_no_withdraw_counterexample :
    (mainFlow ⟨0, 0, true, [⟨⟨UNLOCKED_STATE, 50⟩, 0⟩]⟩).outcome
        = .completedOk
    ∧ (mainFlow ⟨0, 0, true, [⟨⟨UNLOCKED_STATE, 50⟩, 0⟩]⟩).actions = []
    ∧ TxAction.withdraw
        ∉ (mainFlow ⟨0, 0, true, [⟨⟨UNLOCKED_STATE, 50⟩, 0⟩]⟩).actions
    ∧ "Unlock process completed successfully!"
        ∈ (mainFlow ⟨0, 0, true, [⟨⟨UNLOCKED_STATE, 50⟩, 0⟩]⟩).messages := by
  decide

/-- C1, amended. The flow ends at unlock: in every run, `main` never submits
a `withdraw` and never creates an associated token account, and whenever it
reports success it does so directly after the unlock phase (printing the
final success message). -/
theorem C1_flow_ends_at_unlock (env : RunEnv) :
    TxAction.withdraw ∉ (mainFlow env).actions
    ∧ TxAction.createAssociatedAccount ∉ (mainFlow env).actions
    ∧ ((mainFlow env).outcome = .completedOk →
        "Unlock process completed successfully!" ∈ (mainFlow env).messages) := by
  unfold mainFlow
  split
  · simp
  · refine ⟨?_, ?_, ?_⟩
    · simp only [List.mem_append]
      rintro (h | h)
      · split at h <;> simp at h
      · rcases wait_for_unlock_action_mem _ _ h with h | h <;> exact
          TxAction.noConfusion h
    · simp only [List.mem_append]
      rintro (h | h)
      · split at h <;> simp at h
      · rcases wait_for_unlock_action_mem _ _ h with h | h <;> exact
          TxAction.noConfusion h
    · intro h
      simp only at h
      simp [h]

/-- C1, witness for the amended claim: on a run that finds the account
already Unlocked, no withdraw is submitted and success is reported with the
final message. -/
theorem C1_flow_ends_at_unlock_witness :
    TxAction.withdraw
        ∉ (mainFlow ⟨3, 3, true, [⟨⟨UNLOCKED_STATE, 7⟩, 7⟩]⟩).actions
    ∧ "Unlock process completed successfully!"
        ∈ (mainFlow ⟨3, 3, true, [⟨⟨UNLOCKED_STATE, 7⟩, 7⟩]⟩).messages :=
  ⟨(C1_flow_ends_at_unlock ⟨3, 3, true, [⟨⟨UNLOCKED_STATE, 7⟩, 7⟩]⟩).1,
    (C1_flow_ends_at_unlock ⟨3, 3, true, [⟨⟨UNLOCKED_STATE, 7⟩, 7⟩]⟩).2.2
      (by decide)⟩

/-- C4, counterexample. The claim says a re-run finding the account already
Unlocked "proceeds directly to withdrawal". On a concrete such run, `main`
reports success without ever submitting a withdraw: there is no withdrawal
step to proceed to. -/
theorem C4_no_withdraw_after_unlocked_counterexample :
    (mainFlow ⟨9, 9, true, [⟨⟨UNLOCKED_STATE, 99⟩, 0⟩]⟩).outcome
        = .completedOk
    ∧ TxAction.withdraw
        ∉ (mainFlow ⟨9, 9, true, [⟨⟨UNLOCKED_STATE, 99⟩, 0⟩]⟩).actions := by
  decide

/-- C4, amended. Re-invoking the orchestrator against a remote state where
the unlock account already exists never submits a duplicate `init_unlock`;
when the account is Waiting the run resumes polling (its first action is the
60-second sleep followed by the continued loop), and when it is already
Unlocked the run neither re-initializes nor re-polls but reports success
immediately with no actions (there is no withdrawal step in the program). -/
theorem C4_idempotent_reinvocation (env : RunEnv)
    (hv : verify_unlock_pda env.derivedPda env.expectedPda = true)
    (hex : env.accountExists = true) :
    TxAction.initUnlock ∉ (mainFlow env).actions
    ∧ (∀ obs rest, env.poll = obs :: rest →
        obs.stateAcc.is_unlocked = true →
        (mainFlow env).actions = [] ∧ (mainFlow env).outcome = .completedOk)
    ∧ (∀ obs rest, env.poll = obs :: rest →
        obs.stateAcc.is_waiting = true →
        obs.clockNow < obs.stateAcc.unlock_at →
        (mainFlow env).actions
          = TxAction.sleepSecs 60 :: (wait_for_unlock rest).1) := by
  refine ⟨?_, ?_, ?_⟩
  · simp only [mainFlow, hv, hex]
    simp only [Bool.true_eq_false, if_false, if_true, List.nil_append]
    intro h
    rcases wait_for_unlock_action_mem _ _ h with h | h <;> exact
      TxAction.noConfusion h
  · intro obs rest hpoll hu
    simp [mainFlow, hv, hex, hpoll, wait_for_unlock, hu, liftPoll]
  · intro obs rest hpoll hw hlt
    have hu : obs.stateAcc.is_unlocked = false := is_waiting_not_unlocked _ hw
    simp [mainFlow, hv, hex, hpoll, wait_for_unlock, hu, hw, not_le.mpr hlt]

/-- C4, witness for the amended claim: a run finding an existing Waiting
account with the deadline still ahead submits no `init_unlock` and resumes
polling (a single 60-second sleep before the observation stream ends). -/
theorem C4_idempotent_reinvocation_witness :
    TxAction.initUnlock
        ∉ (mainFlow ⟨4, 4, true, [⟨⟨WAITING_STATE, 200⟩, 100⟩]⟩).actions
    ∧ (mainFlow ⟨4, 4, true, [⟨⟨WAITING_STATE, 200⟩, 100⟩]⟩).actions
        = [TxAction.sleepSecs 60] := by
  refine ⟨(C4_idempotent_reinvocation ⟨4, 4, true,
    [⟨⟨WAITING_STATE, 200⟩, 100⟩]⟩ (by decide) rfl).1, ?_⟩
  have h := (C4_idempotent_reinvocation ⟨4, 4, true,
      [⟨⟨WAITING_STATE, 200⟩, 100⟩]⟩ (by decide) rfl).2.2
    ⟨⟨WAITING_STATE, 200⟩, 100⟩ [] rfl (by decide) (by decide)
  simpa [wait_for_unlock] using h

/-- C5, counterexample. The claim says a PDA mismatch aborts the run as a
fatal `PdaVerificationFailed` error. On a concrete mismatch (derived 1,
expected 2), `main` prints the message and returns `Ok(())` — the outcome is
not an error at all (though indeed no transaction is submitted). -/
theorem C5_ok_exit_counterexample :
    (mainFlow ⟨1, 2, true, []⟩).outcome = .pdaFailedOk
    ∧ isRunError (mainFlow ⟨1, 2, true, []⟩).outcome = false
    ∧ (mainFlow ⟨1, 2, true, []⟩).actions = []
    ∧ (mainFlow ⟨1, 2, true, []⟩).messages = ["PDA verification failed!"] := by
  decide

/-- C5, amended. If the independently recomputed expected UnlockAddress
differs from the address produced by the two-step derivation, the run prints
the descriptive message "PDA verification failed!" and terminates early —
but by returning `Ok(())` (a success exit), not a fatal error value — and no
transaction is ever submitted in that run. -/
theorem C5_pda_mismatch_early_return (env : RunEnv)
    (h : env.derivedPda ≠ env.expectedPda) :
    mainFlow env = ⟨[], ["PDA verification failed!"], .pdaFailedOk⟩ := by
  have hv : verify_unlock_pda env.derivedPda env.expectedPda = false := by
    simp [verify_unlock_pda, h]
  simp [mainFlow, hv]

/-- C5, witness for the amended claim: a concrete mismatching pair of
addresses makes the run terminate early with the message, no actions, and a
success exit. -/
theorem C5_pda_mismatch_early_return_witness :
    mainFlow ⟨5, 6, true, []⟩
      = ⟨[], ["PDA verification failed!"], .pdaFailedOk⟩ :=
  C5_pda_mismatch_early_return ⟨5, 6, true, []⟩ (by decide)

/-- C8. The interactive setup rejects any input whose trimmed phrase does
not split into exactly 12 whitespace-separated words, and — at the right
word count — any phrase containing a character that is neither ASCII
lowercase nor whitespace; exactly the phrases passing both checks proceed to
key generation and persistence (the `generateAndPersist` tail). -/
theorem C8_mnemonic_validation (toSeed : List Char → Except String Bytes)
    (derivePub : Bytes → Pubkey) (pubkeyString : Pubkey → String)
    (input : List Char) :
    ((splitWhitespace (trimChars input)).length ≠ 12 →
        setup_owner_keypair toSeed derivePub pubkeyString input
          = .error "Mnemonic must be exactly 12 words")
    ∧ ((splitWhitespace (trimChars input)).length = 12 →
        (∃ c ∈ trimChars input,
            ¬(isAsciiLowercase c = true ∨ c.isWhitespace = true)) →
        setup_owner_keypair toSeed derivePub pubkeyString input
          = .error "Mnemonic can only contain lowercase letters and spaces")
    ∧ ((splitWhitespace (trimChars input)).length = 12 →
        (∀ c ∈ trimChars input,
            isAsciiLowercase c = true ∨ c.isWhitespace = true) →
        setup_owner_keypair toSeed derivePub pubkeyString input
          = generateAndPersist toSeed derivePub pubkeyString
              (trimChars input)) := by
  refine ⟨?_, ?_, ?_⟩
  · intro h12
    simp [setup_owner_keypair, h12]
  · intro h12 hex
    obtain ⟨c, hc, hnc⟩ := hex
    push_neg at hnc
    have hany : (trimChars input).any
        (fun c => !(isAsciiLowercase c) && !(c.isWhitespace)) = true := by
      refine List.any_eq_true.mpr ⟨c, hc, ?_⟩
      simp only [ne_eq, Bool.not_eq_true] at hnc
      simp [hnc.1, hnc.2]
    simp [setup_owner_keypair, h12, hany]
  · intro h12 hall
    have hany : (trimChars input).any
        (fun c => !(isAsciiLowercase c) && !(c.isWhitespace)) = false := by
      rw [List.any_eq_false]
      intro c hc
      rcases hall c hc with h | h <;> simp [h]
    simp [setup_owner_keypair, h12, hany]

/-- C8, witness: a 2-word phrase is rejected for its word count, a 12-word
phrase containing an uppercase letter is rejected for its characters, and a
valid 12-word lowercase phrase reaches the generation tail. -/
theorem C8_mnemonic_validation_witness :
    setup_owner_keypair (fun _ => Except.ok (List.replicate 64 0))
        (fun _ => 0) (fun _ => "pk") "hello world".toList
      = .error "Mnemonic must be exactly 12 words"
    ∧ setup_owner_keypair (fun _ => Except.ok (List.replicate 64 0))
        (fun _ => 0) (fun _ => "pk") "A b c d e f g h i j k l".toList
      = .error "Mnemonic can only contain lowercase letters and spaces"
    ∧ setup_owner_keypair (fun _ => Except.ok (List.replicate 64 0))
        (fun _ => 0) (fun _ => "pk") "a b c d e f g h i j k l".toList
      = generateAndPersist (fun _ => Except.ok (List.replicate 64 0))
          (fun _ => 0) (fun _ => "pk")
          (trimChars "a b c d e f g h i j k l".toList) :=
  ⟨(C8_mnemonic_validation (fun _ => Except.ok (List.replicate 64 0))
      (fun _ => 0) (fun _ => "pk") "hello world".toList).1 (by decide),
    (C8_mnemonic_validation (fun _ => Except.ok (List.replicate 64 0))
      (fun _ => 0) (fun _ => "pk") "A b c d e f g h i j k l".toList).2.1
      (by decide) ⟨'A', by decide, by decide⟩,
    (C8_mnemonic_validation (fun _ => Except.ok (List.replicate 64 0))
      (fun _ => 0) (fun _ => "pk") "a b c d e f g h i j k l".toList).2.2
      (by decide) (by decide)⟩

/-- C7. Every key file the setup routine writes round-trips: loading the
written record succeeds with the keypair rebuilt from the stored
`private_key` bytes, and re-deriving and rendering the public key from those
bytes reproduces exactly the `pubkey` string recorded in the file. -/
theorem C7_keyfile_roundtrip (toSeed : List Char → Except String Bytes)
    (derivePub : Bytes → Pubkey) (pubkeyString : Pubkey → String)
    (input : List Char) (file : KeyFileFormat)
    (h : setup_owner_keypair toSeed derivePub pubkeyString input = .ok file) :
    load_keypair_from_file derivePub (.ok file)
        = .ok ⟨file.private_key, derivePub file.private_key⟩
    ∧ pubkeyString (derivePub file.private_key) = file.pubkey := by
  simp only [setup_owner_keypair] at h
  split at h
  · exact Except.noConfusion h
  · split at h
    · exact Except.noConfusion h
    · simp only [generateAndPersist] at h
      cases hts : toSeed (trimChars input) with
      | error e => rw [hts] at h; exact Except.noConfusion h
      | ok seed =>
        rw [hts] at h
        dsimp only at h
        cases hkp : keypairFromSeed derivePub (seed.take 32) with
        | error e2 => rw [hkp] at h; exact Except.noConfusion h
        | ok kp =>
          rw [hkp] at h
          simp only [Except.ok.injEq] at h
          subst h
          simp only [keypairFromSeed] at hkp
          split at hkp
          · rename_i hlen
            simp only [Except.ok.injEq] at hkp
            subst hkp
            refine ⟨?_, rfl⟩
            simp [load_keypair_from_file, hlen, keypairFromSeed]
          · exact Except.noConfusion hkp

/-- C7, witness: the file written for a concrete accepted phrase (with
concrete collaborator functions) reloads to the keypair rebuilt from its
stored private-key bytes. -/
theorem C7_keyfile_roundtrip_witness :
    load_keypair_from_file (fun _ => 0)
        (.ok ⟨List.replicate 32 0, "pk"⟩)
      = .ok ⟨List.replicate 32 0, 0⟩ :=
  (C7_keyfile_roundtrip (fun _ => Except.ok (List.replicate 64 0))
    (fun _ => 0) (fun _ => "pk") "a b c d e f g h i j k l".toList
    ⟨List.replicate 32 0, "pk"⟩ rfl).1

end VmWallet
